import Mathlib

set_option maxHeartbeats 1000000

namespace ReportAI

/-! Shallow embedding of the ReportAI backend (ai_analyzer.py, report_generator.py,
main.py).  Cell values of the tabular dataset are modelled by an inductive
`Value` type (the renderers never compute with cell values, they only place
them and apply the Python str conversion, modelled by `pyStr`). -/

/-- A scalar cell value of the dataset. -/
inductive Value where
| vStr : String → Value
| vInt : Int → Value
| vNull : Value
deriving Repr, DecidableEq

/-- Python str() applied to a cell value, as used by the DOCX renderer. -/
def pyStr : Value → String
| Value.vStr s => s
| Value.vInt n => toString n
| Value.vNull => ( "None")

/-- The pandas DataFrame handed to the renderers: ordered column names and
ordered rows of cell values. -/
structure DataFrame where
  colNames : List String
  rows : List (List Value)
deriving Repr, DecidableEq

/-- Well-formedness invariant of a dataset (spec section 3): every row has
exactly one value per column. -/
def DataFrame.wf (df : DataFrame) : Prop :=
  ∀ r ∈ df.rows, r.length = df.colNames.length

instance (df : DataFrame) : Decidable df.wf := by
  unfold DataFrame.wf
  infer_instance

/-- The structured analysis dictionary produced by AIAnalyzer (the five keys
returned by both the mock path and the non-JSON fallback path). -/
structure AnalysisResult where
  executive_summary : String
  key_findings : List String
  statistical_analysis : String
  recommendations : List String
  conclusion : String
deriving Repr, DecidableEq

/-- The numeric summary statistics pandas computes for the mock analysis
(ai_analyzer.py lines 142 and 159).  Floating point arithmetic is abstracted:
the two fields hold the already-formatted (.2f) decimal strings that are
interpolated into the text. -/
structure DataStats where
  meanStr : String
  stdStr : String
deriving Repr, DecidableEq

/-- AIAnalyzer._mock_analysis (ai_analyzer.py lines 130-166): the fixed
fallback analysis, parameterised by the dataset (only its row and column
counts are read) and the formatted mean and standard deviation. -/
def mock_analysis (df : DataFrame) (stats : DataStats) (language : String) :
    AnalysisResult :=
  if language = ( "fi") then
    { executive_summary :=
        ( "Tämä raportti analysoi ") ++ toString df.rows.length ++
        ( " mittaustulosta. Data sisältää ") ++ toString df.colNames.length ++
        ( " saraketta ja kattaa useita testiolosuhteita.")
      key_findings :=
        [ ( "Yhteensä ") ++ toString df.rows.length ++ ( " mittausta analysoitu"),
          ( "Data sisältää ") ++ toString df.colNames.length ++ ( " eri parametria"),
          ( "Mittaukset vaihtelevat eri olosuhteissa"),
          ( "Huomattu systemaattisia trendejä datassa")]
      statistical_analysis :=
        ( "Keskiarvo: ") ++ stats.meanStr ++ ( ", Keskihajonta: ") ++ stats.stdStr ++
        ( ". Data osoittaa johdonmukaisia tuloksia eri mittauspisteissä.")
      recommendations :=
        [ ( "Jatka nykyisten testausprotokollien käyttöä"),
          ( "Tarkkaile poikkeavia arvoja säännöllisesti"),
          ( "Dokumentoi kaikki testausolosuhteet tarkasti")]
      conclusion :=
        ( "Testausdata on laadultaan hyvää ja osoittaa johdonmukaisia tuloksia. Suositellaan jatkotoimenpiteitä havaittujen trendien perusteella.") }
  else
    { executive_summary :=
        ( "This report analyzes ") ++ toString df.rows.length ++
        ( " measurement results. The data contains ") ++ toString df.colNames.length ++
        ( " columns covering multiple test conditions.")
      key_findings :=
        [ ( "Total of ") ++ toString df.rows.length ++ ( " measurements analyzed"),
          ( "Data contains ") ++ toString df.colNames.length ++ ( " different parameters"),
          ( "Measurements vary across different conditions"),
          ( "Systematic trends observed in the data")]
      statistical_analysis :=
        ( "Mean: ") ++ stats.meanStr ++ ( ", Std Dev: ") ++ stats.stdStr ++
        ( ". Data shows consistent results across measurement points.")
      recommendations :=
        [ ( "Continue with current testing protocols"),
          ( "Monitor outlier values regularly"),
          ( "Document all test conditions precisely")]
      conclusion :=
        ( "Testing data is of good quality and shows consistent results. Further actions recommended based on observed trends.") }

/-- Python slice s[a:b] (for a ≤ b, with clamping) on the code points of a
string. -/
def pySliceRange (s : String) (a b : Nat) : String :=
  ((s.data.drop a).take (b - a)).asString

/-- Python slice s[a:] on the code points of a string. -/
def pySliceFrom (s : String) (a : Nat) : String :=
  (s.data.drop a).asString

/-- AIAnalyzer._structure_analysis (ai_analyzer.py lines 115-128).  The
json.loads step together with reading the parsed dictionary is abstracted by
the `parse` oracle; `none` models the exception branch of the try, in which
the text is cut into the five fixed slices. -/
def structure_analysis (parse : String → Option AnalysisResult)
    (analysis_text : String) : AnalysisResult :=
  match parse analysis_text with
  | some r => r
  | none =>
    { executive_summary := pySliceRange analysis_text 0 500
      key_findings := [pySliceRange analysis_text 500 1000]
      statistical_analysis := pySliceRange analysis_text 1000 1500
      recommendations := [pySliceRange analysis_text 1500 2000]
      conclusion := pySliceFrom analysis_text 2000 }

/-- Outcome of the Claude API call inside AIAnalyzer.analyze: either the call
raises, or it returns a response text. -/
inductive ApiOutcome where
| raises : ApiOutcome
| returns : String → ApiOutcome
deriving Repr, DecidableEq

/-- AIAnalyzer.analyze (ai_analyzer.py lines 23-71).  `clientPresent` models
whether ANTHROPIC_API_KEY was set (self.client is not None); `api` models the
outcome of the messages.create call; the except branch returns the mock
analysis, as does the missing-client branch.  The function is total: every
failure of the collaborator is absorbed. -/
def analyze (clientPresent : Bool) (api : ApiOutcome)
    (parse : String → Option AnalysisResult)
    (df : DataFrame) (stats : DataStats) (_templateType language : String) :
    AnalysisResult :=
  if clientPresent = false then mock_analysis df stats language
  else
    match api with
    | ApiOutcome.raises => mock_analysis df stats language
    | ApiOutcome.returns text => structure_analysis parse text

/-! ## Report generator (report_generator.py) -/

/-- One element appended by a renderer, covering both the reportlab flowables
of the PDF path and the python-docx calls of the Word path.  `metaTable` is
the reportlab metadata Table of label/value rows; `para` an ordinary
paragraph; `bullet` a List Bullet paragraph; `numItem` a List Number
paragraph; `blank` an empty add_paragraph call; `dataTable` the data summary
table with its cell matrix. -/
inductive Elem where
| title : String → Elem
| spacer : Elem
| metaTable : List (String × String) → Elem
| heading : String → Elem
| para : String → Elem
| bullet : String → Elem
| numItem : String → Elem
| dataTable : List (List Value) → Elem
| pageBreak : Elem
| footer : String → Elem
| blank : Elem
deriving Repr, DecidableEq

/-- The analysis dictionary as the renderers read it: config.get with a
per-key default at every use site (a missing analysis dict behaves as the
all-`none` record). -/
structure AnalysisDict where
  executive_summary : Option String
  key_findings : Option (List String)
  statistical_analysis : Option String
  recommendations : Option (List String)
  conclusion : Option String
deriving Repr, DecidableEq

/-- The config dictionary handed to ReportGenerator.generate.  `company` and
`author` model config.get with default N/A at the use sites. -/
structure Config where
  title : String
  date : String
  company : Option String
  author : Option String
  analysis : AnalysisDict
deriving Repr, DecidableEq

/-- The metadata rows of the PDF metadata table (report_generator.py lines
118-123); `now` is the render-time timestamp formatted %Y-%m-%d %H:%M. -/
def pdfMetaRows (c : Config) (now : String) : List (String × String) :=
  [(( "Date:"), c.date),
   (( "Company:"), c.company.getD ( "N/A")),
   (( "Author:"), c.author.getD ( "N/A")),
   (( "Generated:"), now)]

/-- The data summary table of the PDF renderer (report_generator.py lines
165-171): header row of column names on top of the first 10 data rows; every
row is truncated to 6 entries when the header is longer than 6. -/
def pdfTableData (df : DataFrame) : List (List Value) :=
  let tbl := (df.colNames.map Value.vStr) :: df.rows.take 10
  if 6 < df.colNames.length then tbl.map (fun r => r.take 6) else tbl

/-- The cell texts of the DOCX data table (report_generator.py lines 262-276):
header cells from the first 6 column names, one row per sampled row with
str() of the first 6 values. -/
def docxCellMatrix (df : DataFrame) : List (List Value) :=
  ((df.colNames.take 6).map Value.vStr) ::
    (df.rows.take 10).map (fun r => (r.take 6).map (fun v => Value.vStr (pyStr v)))

/-- The enumerate(xs, i) loop bodies of the PDF renderer (lines 149-151 and
193-195): each item becomes a numbered paragraph followed by a spacer. -/
def numberedParas : Nat → List String → List Elem
| _, [] => []
| i, x :: xs =>
    Elem.para (toString i ++ ( ". ") ++ x) :: Elem.spacer :: numberedParas (i + 1) xs

/-- ReportGenerator._generate_pdf (report_generator.py lines 78-217) as the
ordered list of flowables appended to `elements`; `now` is the %Y-%m-%d %H:%M
timestamp of the metadata row, `today` the %Y-%m-%d date of the footer. -/
def pdfElems (c : Config) (df : DataFrame) (now today : String) : List Elem :=
  [Elem.title c.title, Elem.spacer,
   Elem.metaTable (pdfMetaRows c now), Elem.spacer,
   Elem.heading ( "Executive Summary"), Elem.spacer,
   Elem.para (c.analysis.executive_summary.getD ( "No summary available")), Elem.spacer,
   Elem.heading ( "Key Findings"), Elem.spacer]
  ++ numberedParas 1 (c.analysis.key_findings.getD [])
  ++ [Elem.spacer,
      Elem.heading ( "Statistical Analysis"), Elem.spacer,
      Elem.para (c.analysis.statistical_analysis.getD ( "No statistical analysis available")), Elem.spacer,
      Elem.heading ( "Data Summary"), Elem.spacer,
      Elem.dataTable (pdfTableData df), Elem.spacer,
      Elem.pageBreak,
      Elem.heading ( "Recommendations"), Elem.spacer]
  ++ numberedParas 1 (c.analysis.recommendations.getD [])
  ++ [Elem.spacer,
      Elem.heading ( "Conclusion"), Elem.spacer,
      Elem.para (c.analysis.conclusion.getD ( "No conclusion available")),
      Elem.spacer,
      Elem.footer (( "Generated by ReportAI - Automated Quality Reports | ") ++ today)]

/-- ReportGenerator._generate_word (report_generator.py lines 219-298) as the
ordered list of document objects added to the docx Document. -/
def docxElems (c : Config) (df : DataFrame) (now today : String) : List Elem :=
  [Elem.title c.title,
   Elem.para (( "Date: ") ++ c.date),
   Elem.para (( "Company: ") ++ c.company.getD ( "N/A")),
   Elem.para (( "Author: ") ++ c.author.getD ( "N/A")),
   Elem.para (( "Generated: ") ++ now),
   Elem.blank,
   Elem.heading ( "Executive Summary"),
   Elem.para (c.analysis.executive_summary.getD ( "No summary available")),
   Elem.blank,
   Elem.heading ( "Key Findings")]
  ++ (c.analysis.key_findings.getD []).map Elem.bullet
  ++ [Elem.blank,
      Elem.heading ( "Statistical Analysis"),
      Elem.para (c.analysis.statistical_analysis.getD ( "No statistical analysis available")),
      Elem.blank,
      Elem.heading ( "Data Summary"),
      Elem.dataTable (docxCellMatrix df),
      Elem.blank,
      Elem.pageBreak,
      Elem.heading ( "Recommendations")]
  ++ (c.analysis.recommendations.getD []).map Elem.numItem
  ++ [Elem.blank,
      Elem.heading ( "Conclusion"),
      Elem.para (c.analysis.conclusion.getD ( "No conclusion available")),
      Elem.blank,
      Elem.footer (( "Generated by ReportAI - ") ++ today)]

/-- The header row of the Excel Data sheet (report_generator.py lines
350-354): all column names, written at row 1. -/
def excelHeaderRow (df : DataFrame) : List Value :=
  df.colNames.map Value.vStr

/-- The data rows of the Excel Data sheet (report_generator.py lines
346-348): row r of the DataFrame is written untruncated at sheet row r+2. -/
def excelDataRows (df : DataFrame) : List (List Value) :=
  df.rows

/-- The Excel Data sheet assembled as a row grid: the two cell-writing loops
fill disjoint coordinates, header at row 1 and data at rows 2..n+1, so the
final grid is the header row followed by the full dataset. -/
def excelDataSheet (df : DataFrame) : List (List Value) :=
  excelHeaderRow df :: excelDataRows df

/-- ReportGenerator._get_extension (report_generator.py lines 69-76); the
dictionary lookup defaults to pdf for unknown tokens. -/
def getExtension (format : String) : String :=
  if format = ( "pdf") then ( "pdf")
  else if format = ( "word") then ( "docx")
  else if format = ( "excel") then ( "xlsx")
  else ( "pdf")

/-- Python str.replace for a single-character pattern: every occurrence of
the character `src` becomes the character `dst`. -/
def replaceChar (src dst : Char) (s : String) : String :=
  (s.data.map (fun ch => if ch = src then dst else ch)).asString

/-- The title sanitisation of ReportGenerator.generate line 53: every space
and every slash replaced by an underscore (the two single-character
str.replace calls of the source). -/
def sanitizeTitle (t : String) : String :=
  replaceChar ( '/') ( '_') (replaceChar ( ' ') ( '_') t)

/-- The output filename built at report_generator.py lines 52-54; `ts` is the
%Y%m%d_%H%M%S render timestamp (second granularity). -/
def mkFilename (title ts format : String) : String :=
  sanitizeTitle title ++ ( "_") ++ ts ++ ( ".") ++ getExtension format

/-- Errors raised by ReportGenerator.generate: the ValueError of the unknown
format branch (line 65).  No validation error exists anywhere in the class. -/
inductive GenError where
| unsupportedFormat : String → GenError
deriving Repr, DecidableEq

/-- The message of the ValueError raised at report_generator.py line 65. -/
def genErrorMsg : GenError → String
| GenError.unsupportedFormat t => ( "Unsupported format: ") ++ t

/-- The artifact written by the selected renderer. -/
inductive Artifact where
| document : List Elem → Artifact
| spreadsheet : List (List Value) → Artifact
deriving Repr, DecidableEq

/-- The result of a successful generate call: the returned output path and
the artifact written there. -/
structure GenResult where
  path : String
  artifact : Artifact
deriving Repr, DecidableEq

/-- ReportGenerator.generate (report_generator.py lines 31-67).  `ts`, `now`
and `today` are the render-time timestamps (%Y%m%d_%H%M%S, %Y-%m-%d %H:%M,
%Y-%m-%d).  The unknown-format branch raises before any renderer runs, so no
artifact exists on the error path. -/
def generate (df : DataFrame) (c : Config) (format ts now today : String) :
    Except GenError GenResult :=
  let path := ( "outputs/") ++ mkFilename c.title ts format
  if format = ( "pdf") then
    Except.ok ⟨path, Artifact.document (pdfElems c df now today)⟩
  else if format = ( "word") then
    Except.ok ⟨path, Artifact.document (docxElems c df now today)⟩
  else if format = ( "excel") then
    Except.ok ⟨path, Artifact.spreadsheet (excelDataSheet df)⟩
  else
    Except.error (GenError.unsupportedFormat format)

/-- The files created by a generate call: the single output file on success,
nothing on the error path (the raise precedes every file write). -/
def filesOf : Except GenError GenResult → List String
| Except.ok r => [r.path]
| Except.error _ => []

/-! ## API handler (main.py) -/

/-- The methods defined on class AIAnalyzer (ai_analyzer.py). -/
def aiAnalyzerMethods : List String :=
  [( "analyze"), ( "_prepare_data_summary"), ( "_create_prompt"),
   ( "_structure_analysis"), ( "_mock_analysis")]

/-- The methods defined on class ReportGenerator (report_generator.py). -/
def reportGeneratorMethods : List String :=
  [( "generate"), ( "_get_extension"), ( "_generate_pdf"),
   ( "_generate_word"), ( "_generate_excel")]

/-- Python attribute lookup followed by a call: an AttributeError is raised
when the named method is not defined on the object. -/
def callMethod (methods : List String) (name : String) : Except String Unit :=
  if methods.contains name then Except.ok ()
  else Except.error (( "AttributeError: ") ++ name)

/-- The outcome of the /api/generate handler: a success payload with the
output filename, or an HTTPException status and detail. -/
inductive HandlerResult where
| success : String → HandlerResult
| httpError : Nat → String → HandlerResult
deriving Repr, DecidableEq

/-- The body of the try block of generate_report (main.py lines 159-219)
after the file_id check: the calls the handler issues, in source order, each
failing when the method does not exist on its object. -/
def generateReportBody (fileId outputFormat : String) : Except String String := do
  callMethod aiAnalyzerMethods ( "analyze_data")
  if outputFormat = ( "pdf") then
    callMethod reportGeneratorMethods ( "generate_pdf")
  else if outputFormat = ( "word") then
    callMethod reportGeneratorMethods ( "generate_docx")
  else if outputFormat = ( "excel") then
    callMethod reportGeneratorMethods ( "generate_xlsx")
  else
    Except.error (( "400: Unsupported format: ") ++ outputFormat)
  pure (( "report_") ++ fileId ++ ( ".") ++ outputFormat)

/-- The /api/generate handler generate_report (main.py lines 145-222):
every exception escaping the try block, including the HTTPExceptions raised
inside it, is rewrapped as a 500 with the Report generation failed prefix. -/
def generate_report (fileIdValid : Bool) (fileId outputFormat : String) :
    HandlerResult :=
  if fileIdValid = false then
    HandlerResult.httpError 500 ( "Report generation failed: 404: File not found")
  else
    match generateReportBody fileId outputFormat with
    | Except.ok fn => HandlerResult.success fn
    | Except.error e =>
        HandlerResult.httpError 500 (( "Report generation failed: ") ++ e)

/-! ## Section skeleton shared by the PDF and DOCX renderers -/

/-- The structural tag of a renderer element that delimits a report section:
title, named heading, data table, page break, footer.  Paragraphs, list
items, metadata lines and spacers carry section content, not structure. -/
inductive Tag where
| titleT : Tag
| headingT : String → Tag
| tableT : Tag
| breakT : Tag
| footerT : Tag
deriving Repr, DecidableEq

/-- The structural tag of one element, none for content-only elements. -/
def tagOf : Elem → Option Tag
| Elem.title _ => some Tag.titleT
| Elem.heading s => some (Tag.headingT s)
| Elem.dataTable _ => some Tag.tableT
| Elem.pageBreak => some Tag.breakT
| Elem.footer _ => some Tag.footerT
| _ => none

/-- The section skeleton of a rendered element sequence. -/
def skeleton (es : List Elem) : List Tag :=
  es.filterMap tagOf

/-- The section sequence required by spec section 4.2, steps 1 and 3-10 (the
metadata block of step 2 consists of content elements and is stated
separately through its position right after the title). -/
def specSectionTags : List Tag :=
  [Tag.titleT,
   Tag.headingT ( "Executive Summary"),
   Tag.headingT ( "Key Findings"),
   Tag.headingT ( "Statistical Analysis"),
   Tag.headingT ( "Data Summary"),
   Tag.tableT,
   Tag.breakT,
   Tag.headingT ( "Recommendations"),
   Tag.headingT ( "Conclusion"),
   Tag.footerT]

/-- One DOCX metadata paragraph from a PDF metadata table row: the label,
one space, the value. -/
def metaParaOfRow (p : String × String) : Elem :=
  Elem.para (p.1 ++ ( " ") ++ p.2)

/-! ## Concrete example inputs used by the witnesses -/

/-- A small 2-row, 3-column dataset. -/
def dfEx : DataFrame :=
  ⟨[( "A"), ( "B"), ( "C")],
   [[Value.vInt 1, Value.vInt 2, Value.vInt 3],
    [Value.vInt 4, Value.vInt 5, Value.vInt 6]]⟩

/-- A 12-row, 7-column dataset, exceeding the 10-row and 6-column sampling
limits. -/
def dfBig : DataFrame :=
  ⟨(List.range 7).map (fun j => ( "col") ++ toString j),
   (List.range 12).map (fun i =>
     (List.range 7).map (fun j => Value.vInt (Int.ofNat (7 * i + j))))⟩

/-- An example analysis dictionary. -/
def analysisEx : AnalysisDict :=
  ⟨some ( "summary text"), some [( "finding one"), ( "finding two")],
   some ( "stats text"), some [( "rec one")], some ( "conclusion text")⟩

/-- An example config. -/
def cfgEx : Config :=
  ⟨( "Quality Report"), ( "2024-01-01"), none, none, analysisEx⟩

/-- A second, distinct config carrying the same title as cfgEx. -/
def cfgEx2 : Config :=
  ⟨( "Quality Report"), ( "2024-01-01"), some ( "Acme"), some ( "Ann"), analysisEx⟩

/-- A config whose title is the empty string. -/
def cfgEmptyTitle : Config :=
  ⟨( ""), ( "2024-01-01"), none, none, analysisEx⟩

/-- Example formatted statistics. -/
def statsEx : DataStats := ⟨( "3.50"), ( "1.50")⟩

theorem filterMap_tagOf_numberedParas (i : Nat) (xs : List String) :
    List.filterMap tagOf (numberedParas i xs) = [] := by
  induction xs generalizing i with
  | nil => rfl
  | cons x xs ih => simp [numberedParas, List.filterMap_cons, tagOf, ih]

theorem filterMap_tagOf_bullets (xs : List String) :
    List.filterMap (tagOf ∘ Elem.bullet) xs = [] := by
  induction xs with
  | nil => rfl
  | cons x xs ih => simp [List.filterMap_cons, tagOf, ih]

theorem filterMap_tagOf_numItems (xs : List String) :
    List.filterMap (tagOf ∘ Elem.numItem) xs = [] := by
  induction xs with
  | nil => rfl
  | cons x xs ih => simp [List.filterMap_cons, tagOf, ih]

theorem skeleton_pdf (c : Config) (df : DataFrame) (now today : String) :
    skeleton (pdfElems c df now today) = specSectionTags := by
  simp [skeleton, pdfElems, List.filterMap_append, List.filterMap_cons, tagOf,
    filterMap_tagOf_numberedParas, specSectionTags]

theorem skeleton_docx (c : Config) (df : DataFrame) (now today : String) :
    skeleton (docxElems c df now today) = specSectionTags := by
  simp [skeleton, docxElems, List.filterMap_append, List.filterMap_cons, tagOf,
    filterMap_tagOf_bullets, filterMap_tagOf_numItems, specSectionTags]

/-- Normal form of the PDF data summary table for a well-formed dataset: the
branch on more-than-6 columns collapses to taking the first 6 columns of the
header and of every sampled row. -/
theorem pdfTableData_eq (df : DataFrame) (h : df.wf) :
    pdfTableData df
      = ((df.colNames.take 6).map Value.vStr)
          :: (df.rows.take 10).map (fun r => r.take 6) := by
  unfold pdfTableData
  by_cases hc : 6 < df.colNames.length
  · simp [hc, List.map_take]
  · have hc6 : df.colNames.length ≤ 6 := Nat.le_of_not_lt hc
    simp only [if_neg hc]
    rw [List.take_of_length_le hc6]
    congr 1
    have hrows : ∀ r ∈ df.rows.take 10, r.take 6 = r := by
      intro r hr
      exact List.take_of_length_le
        (by rw [h r (List.mem_of_mem_take hr)]; exact hc6)
    conv_lhs => rw [← List.map_id (df.rows.take 10)]
    exact List.map_congr_left (fun a ha => (hrows a ha).symm)

/-- Claim C4: for every well-formed dataset, the data summary tables built by
the PDF and DOCX renderers hold exactly min(rowCount, 10) data rows and
min(colCount, 6) columns, taken as the first rows and first columns of the
dataset in original order. -/
theorem sampled_table_shape (df : DataFrame) (h : df.wf) :
    pdfTableData df
        = ((df.colNames.take 6).map Value.vStr)
            :: (df.rows.take 10).map (fun r => r.take 6)
    ∧ ((pdfTableData df).tail).length = min df.rows.length 10
    ∧ (∀ r ∈ (pdfTableData df).tail, r.length = min df.colNames.length 6)
    ∧ docxCellMatrix df
        = ((df.colNames.take 6).map Value.vStr)
            :: (df.rows.take 10).map
                (fun r => (r.take 6).map (fun v => Value.vStr (pyStr v)))
    ∧ ((docxCellMatrix df).tail).length = min df.rows.length 10
    ∧ (∀ r ∈ (docxCellMatrix df).tail, r.length = min df.colNames.length 6) := by
  have hpdf := pdfTableData_eq df h
  refine ⟨hpdf, ?_, ?_, rfl, ?_, ?_⟩
  · rw [hpdf]
    simp [List.length_take, Nat.min_comm]
  · rw [hpdf]
    intro r hr
    simp only [List.tail_cons, List.mem_map] at hr
    obtain ⟨x, hx, rfl⟩ := hr
    rw [List.length_take, h x (List.mem_of_mem_take hx), Nat.min_comm]
  · simp [docxCellMatrix, List.length_take, Nat.min_comm]
  · intro r hr
    simp only [docxCellMatrix, List.tail_cons, List.mem_map] at hr
    obtain ⟨x, hx, rfl⟩ := hr
    rw [List.length_map, List.length_take,
      h x (List.mem_of_mem_take hx), Nat.min_comm]

theorem sampled_table_shape_witness :
    dfBig.wf
    ∧ ((pdfTableData dfBig).tail).length = min dfBig.rows.length 10
    ∧ (∀ r ∈ (pdfTableData dfBig).tail, r.length = min dfBig.colNames.length 6) :=
  ⟨by decide, (sampled_table_shape dfBig (by decide)).2.1,
    (sampled_table_shape dfBig (by decide)).2.2.1⟩

/-- Claim C5: for every well-formed dataset, the Excel Data sheet holds
exactly rowCount + 1 rows (the header row of all column names plus one row
per dataset row) and exactly colCount columns, with the complete untruncated
dataset in original order, also beyond the 10-row and 6-column sampling
limits. -/
theorem excel_data_sheet_full (df : DataFrame) (h : df.wf) :
    (excelDataSheet df).length = df.rows.length + 1
    ∧ (∀ r ∈ excelDataSheet df, r.length = df.colNames.length)
    ∧ excelHeaderRow df = df.colNames.map Value.vStr
    ∧ excelDataRows df = df.rows := by
  refine ⟨by simp [excelDataSheet, excelDataRows], ?_, rfl, rfl⟩
  intro r hr
  rcases List.mem_cons.mp hr with hr | hr
  · subst hr
    simp [excelHeaderRow]
  · exact h r hr

theorem excel_data_sheet_full_witness :
    dfBig.wf
    ∧ (excelDataSheet dfBig).length = dfBig.rows.length + 1
    ∧ (∀ r ∈ excelDataSheet dfBig, r.length = dfBig.colNames.length) :=
  ⟨by decide, (excel_data_sheet_full dfBig (by decide)).1,
    (excel_data_sheet_full dfBig (by decide)).2.1⟩

/-- Claim C6: for every format token outside pdf, word, excel, generate
raises the unsupported-format error carrying the offending token, and no
output file is created on this path. -/
theorem unsupported_format_rejected (df : DataFrame) (c : Config)
    (fmt ts now today : String)
    (h : fmt ≠ ( "pdf") ∧ fmt ≠ ( "word") ∧ fmt ≠ ( "excel")) :
    generate df c fmt ts now today
        = Except.error (GenError.unsupportedFormat fmt)
    ∧ genErrorMsg (GenError.unsupportedFormat fmt) = ( "Unsupported format: ") ++ fmt
    ∧ filesOf (generate df c fmt ts now today) = [] := by
  have hg : generate df c fmt ts now today
      = Except.error (GenError.unsupportedFormat fmt) := by
    simp [generate, h.1, h.2.1, h.2.2]
  exact ⟨hg, rfl, by rw [hg]; rfl⟩

theorem unsupported_format_rejected_witness :
    (( "txt") ≠ ( "pdf") ∧ ( "txt") ≠ ( "word") ∧ ( "txt") ≠ ( "excel"))
    ∧ generate dfEx cfgEx ( "txt") ( "20240101_120000") ( "now") ( "today")
        = Except.error (GenError.unsupportedFormat ( "txt"))
    ∧ filesOf (generate dfEx cfgEx ( "txt") ( "20240101_120000") ( "now") ( "today")) = [] :=
  ⟨by decide,
    (unsupported_format_rejected dfEx cfgEx ( "txt") ( "20240101_120000")
      ( "now") ( "today") (by decide)).1,
    (unsupported_format_rejected dfEx cfgEx ( "txt") ( "20240101_120000")
      ( "now") ( "today") (by decide)).2.2⟩

/-- Claim C9: every /api/generate request with a valid file_id ends in a 500
error, because the handler calls analyze_data on AIAnalyzer (which only
defines analyze) and generate_pdf, generate_docx, generate_xlsx on
ReportGenerator (which only defines generate); no report is ever produced
through this endpoint. -/
theorem generate_endpoint_always_500 (fileId fmt : String) :
    generate_report true fileId fmt
        = HandlerResult.httpError 500
            ( "Report generation failed: AttributeError: analyze_data")
    ∧ (∀ fn, generate_report true fileId fmt ≠ HandlerResult.success fn)
    ∧ aiAnalyzerMethods.contains ( "analyze_data") = false
    ∧ reportGeneratorMethods.contains ( "generate_pdf") = false
    ∧ reportGeneratorMethods.contains ( "generate_docx") = false
    ∧ reportGeneratorMethods.contains ( "generate_xlsx") = false := by
  have h1 : callMethod aiAnalyzerMethods ( "analyze_data")
      = Except.error ( "AttributeError: analyze_data") := by rfl
  have hb : generateReportBody fileId fmt
      = Except.error ( "AttributeError: analyze_data") := by
    simp [generateReportBody, h1, Bind.bind, Except.bind]
  have hr : generate_report true fileId fmt
      = HandlerResult.httpError 500
          ( "Report generation failed: AttributeError: analyze_data") := by
    simp only [generate_report, hb]
    norm_num
    decide
  refine ⟨hr, ?_, by decide, by decide, by decide, by decide⟩
  intro fn
  rw [hr]
  intro hcontra
  exact HandlerResult.noConfusion hcontra

theorem asString_append (a b : List Char) :
    (a ++ b).asString = a.asString ++ b.asString := rfl

theorem take_drop_chain (l : List Char) :
    l.take 500 ++ ((l.drop 500).take 500 ++ ((l.drop 1000).take 500
      ++ ((l.drop 1500).take 500 ++ l.drop 2000))) = l := by
  have h3 : l.drop 2000 = (l.drop 1500).drop 500 := by
    rw [List.drop_drop]
  have h2 : l.drop 1500 = (l.drop 1000).drop 500 := by
    rw [List.drop_drop]
  have h1 : l.drop 1000 = (l.drop 500).drop 500 := by
    rw [List.drop_drop]
  rw [h3, List.take_append_drop, h2, List.take_append_drop, h1,
    List.take_append_drop, List.take_append_drop]

/-- The five text slices of the non-JSON fallback reassemble the original
response text. -/
theorem structure_slices_concat (t : String) :
    pySliceRange t 0 500 ++ (pySliceRange t 500 1000 ++ (pySliceRange t 1000 1500
      ++ (pySliceRange t 1500 2000 ++ pySliceFrom t 2000))) = t := by
  unfold pySliceRange pySliceFrom
  norm_num [List.drop_zero]
  rw [← asString_append, ← asString_append, ← asString_append, ← asString_append,
    take_drop_chain]
  rfl

/-- Claim C10: for every analysis response text that is not valid JSON, the
structured result partitions the text without loss: concatenating the
executive summary, the single key finding, the statistical analysis, the
single recommendation and the conclusion yields exactly the original text,
and the two lists each hold exactly one element. -/
theorem structure_analysis_partition (parse : String → Option AnalysisResult)
    (t : String) (h : parse t = none) :
    (structure_analysis parse t).executive_summary
        ++ (structure_analysis parse t).key_findings.headD ( "")
        ++ (structure_analysis parse t).statistical_analysis
        ++ (structure_analysis parse t).recommendations.headD ( "")
        ++ (structure_analysis parse t).conclusion = t
    ∧ (structure_analysis parse t).key_findings.length = 1
    ∧ (structure_analysis parse t).recommendations.length = 1 := by
  have hs : structure_analysis parse t
      = { executive_summary := pySliceRange t 0 500
          key_findings := [pySliceRange t 500 1000]
          statistical_analysis := pySliceRange t 1000 1500
          recommendations := [pySliceRange t 1500 2000]
          conclusion := pySliceFrom t 2000 } := by
    simp [structure_analysis, h]
  rw [hs]
  refine ⟨?_, rfl, rfl⟩
  simp only [List.headD_cons]
  simp only [String.append_assoc]
  exact structure_slices_concat t

theorem structure_analysis_partition_witness :
    ((fun (_ : String) => (none : Option AnalysisResult)) ( "hello") = none)
    ∧ (structure_analysis (fun _ => none) ( "hello")).executive_summary
        ++ (structure_analysis (fun _ => none) ( "hello")).key_findings.headD ( "")
        ++ (structure_analysis (fun _ => none) ( "hello")).statistical_analysis
        ++ (structure_analysis (fun _ => none) ( "hello")).recommendations.headD ( "")
        ++ (structure_analysis (fun _ => none) ( "hello")).conclusion = ( "hello") :=
  ⟨rfl, (structure_analysis_partition (fun _ => none) ( "hello") rfl).1⟩

/-- Claim C3: for every dataset and language in en, fi, when the analysis
collaborator fails (no API key, or the API call raises), analyze returns
normally and its result is the fixed fallback for that language, whose text
depends only on the row count, column count, mean and standard deviation of
the dataset. -/
theorem analyze_fallback (client : Bool) (api : ApiOutcome)
    (parse : String → Option AnalysisResult) (df df₂ : DataFrame)
    (stats stats₂ : DataStats) (tt lang : String)
    (_hlang : lang = ( "en") ∨ lang = ( "fi"))
    (hfail : client = false ∨ api = ApiOutcome.raises) :
    analyze client api parse df stats tt lang = mock_analysis df stats lang
    ∧ (df.rows.length = df₂.rows.length → df.colNames.length = df₂.colNames.length
        → stats = stats₂ → mock_analysis df stats lang = mock_analysis df₂ stats₂ lang) := by
  constructor
  · rcases hfail with hf | hf
    · subst hf
      simp [analyze]
    · subst hf
      cases client with
      | false => simp [analyze]
      | true => simp [analyze]
  · intro h1 h2 h3
    subst h3
    unfold mock_analysis
    rw [h1, h2]

theorem analyze_fallback_witness :
    (( "en") = ( "en") ∨ ( "en") = ( "fi"))
    ∧ ((false = false) ∨ ApiOutcome.raises = ApiOutcome.raises)
    ∧ analyze false ApiOutcome.raises (fun _ => none) dfEx statsEx ( "testing") ( "en")
        = mock_analysis dfEx statsEx ( "en") :=
  ⟨Or.inl rfl, Or.inl rfl,
    (analyze_fallback false ApiOutcome.raises (fun _ => none) dfEx dfEx statsEx statsEx
      ( "testing") ( "en") (Or.inl rfl) (Or.inl rfl)).1⟩

/-- Claim C7: for every fixed config and well-formed dataset the PDF and DOCX
renderers emit the same section sequence (title, metadata block directly
after the title, Executive Summary, Key Findings, Statistical Analysis, Data
Summary with the sampled table, page break, Recommendations, Conclusion,
footer), the metadata blocks carry the same label and value pairs, and the
two data tables hold the same sampled cell values in the same order (the
DOCX cells being the str() rendering of the PDF cells). -/
theorem pdf_docx_same_sections (c : Config) (df : DataFrame)
    (now today : String) (h : df.wf) :
    skeleton (pdfElems c df now today) = skeleton (docxElems c df now today)
    ∧ skeleton (pdfElems c df now today) = specSectionTags
    ∧ (pdfElems c df now today).take 4
        = [Elem.title c.title, Elem.spacer,
           Elem.metaTable (pdfMetaRows c now), Elem.spacer]
    ∧ (docxElems c df now today).take 5
        = Elem.title c.title :: (pdfMetaRows c now).map metaParaOfRow
    ∧ docxCellMatrix df
        = (pdfTableData df).map (fun r => r.map (fun v => Value.vStr (pyStr v))) := by
  refine ⟨?_, skeleton_pdf c df now today, ?_, ?_, ?_⟩
  · rw [skeleton_pdf, skeleton_docx]
  · rfl
  · rfl
  · rw [pdfTableData_eq df h]
    simp only [docxCellMatrix, List.map_cons, List.map_map]
    exact congrArg₂ List.cons (List.map_congr_left (fun a _ => rfl))
      (List.map_congr_left (fun a _ => rfl))

theorem pdf_docx_same_sections_witness :
    dfEx.wf
    ∧ skeleton (pdfElems cfgEx dfEx ( "now") ( "today"))
        = skeleton (docxElems cfgEx dfEx ( "now") ( "today"))
    ∧ docxCellMatrix dfEx
        = (pdfTableData dfEx).map (fun r => r.map (fun v => Value.vStr (pyStr v))) :=
  ⟨by decide,
    (pdf_docx_same_sections cfgEx dfEx ( "now") ( "today") (by decide)).1,
    (pdf_docx_same_sections cfgEx dfEx ( "now") ( "today") (by decide)).2.2.2.2⟩

/-- Claim C8: for every config and dataset, both renderers emit a page break
immediately before the Recommendations heading, unconditionally. -/
theorem pagebreak_before_recommendations (c : Config) (df : DataFrame)
    (now today : String) :
    (∃ l r, pdfElems c df now today
        = l ++ Elem.pageBreak :: Elem.heading ( "Recommendations") :: r)
    ∧ (∃ l r, docxElems c df now today
        = l ++ Elem.pageBreak :: Elem.heading ( "Recommendations") :: r) := by
  constructor
  · refine ⟨[Elem.title c.title, Elem.spacer,
        Elem.metaTable (pdfMetaRows c now), Elem.spacer,
        Elem.heading ( "Executive Summary"), Elem.spacer,
        Elem.para (c.analysis.executive_summary.getD ( "No summary available")),
        Elem.spacer,
        Elem.heading ( "Key Findings"), Elem.spacer]
      ++ numberedParas 1 (c.analysis.key_findings.getD [])
      ++ [Elem.spacer, Elem.heading ( "Statistical Analysis"), Elem.spacer,
          Elem.para (c.analysis.statistical_analysis.getD
            ( "No statistical analysis available")), Elem.spacer,
          Elem.heading ( "Data Summary"), Elem.spacer,
          Elem.dataTable (pdfTableData df), Elem.spacer],
      Elem.spacer :: (numberedParas 1 (c.analysis.recommendations.getD [])
        ++ [Elem.spacer, Elem.heading ( "Conclusion"), Elem.spacer,
            Elem.para (c.analysis.conclusion.getD ( "No conclusion available")),
            Elem.spacer,
            Elem.footer
              (( "Generated by ReportAI - Automated Quality Reports | ") ++ today)]),
      ?_⟩
    simp [pdfElems]
  · refine ⟨[Elem.title c.title,
        Elem.para (( "Date: ") ++ c.date),
        Elem.para (( "Company: ") ++ c.company.getD ( "N/A")),
        Elem.para (( "Author: ") ++ c.author.getD ( "N/A")),
        Elem.para (( "Generated: ") ++ now),
        Elem.blank,
        Elem.heading ( "Executive Summary"),
        Elem.para (c.analysis.executive_summary.getD ( "No summary available")),
        Elem.blank,
        Elem.heading ( "Key Findings")]
      ++ (c.analysis.key_findings.getD []).map Elem.bullet
      ++ [Elem.blank, Elem.heading ( "Statistical Analysis"),
          Elem.para (c.analysis.statistical_analysis.getD
            ( "No statistical analysis available")), Elem.blank,
          Elem.heading ( "Data Summary"),
          Elem.dataTable (docxCellMatrix df), Elem.blank],
      (c.analysis.recommendations.getD []).map Elem.numItem
        ++ [Elem.blank, Elem.heading ( "Conclusion"),
            Elem.para (c.analysis.conclusion.getD ( "No conclusion available")),
            Elem.blank,
            Elem.footer (( "Generated by ReportAI - ") ++ today)],
      ?_⟩
    simp [docxElems]

/-- Counterexample to claim C1: two distinct generate calls (different
configs and datasets, same title) issued at the same wall-clock second
produce the same output path, not distinct ones — the filename carries only
the sanitized title and the second-granularity timestamp, with no unique
suffix. -/
theorem filename_collision_counterexample :
    cfgEx ≠ cfgEx2
    ∧ (generate dfEx cfgEx ( "pdf") ( "20240101_120000") ( "now") ( "today")).map
        GenResult.path = Except.ok ( "outputs/Quality_Report_20240101_120000.pdf")
    ∧ (generate dfBig cfgEx2 ( "pdf") ( "20240101_120000") ( "now") ( "today")).map
        GenResult.path = Except.ok ( "outputs/Quality_Report_20240101_120000.pdf") := by
  refine ⟨?_, rfl, rfl⟩
  intro hcontra
  exact absurd (congrArg Config.company hcontra) (by decide)

/-- Claim C1 (amended): two generate calls issued in the same wall-clock
second with the same config title produce the SAME output filename, since
the filename is determined solely by the sanitized title, the
second-granularity timestamp and the extension; filenames of same-title,
same-format calls are distinct exactly when their timestamp seconds
differ. -/
theorem filename_determined_by_title_and_second (c₁ c₂ : Config)
    (df₁ df₂ : DataFrame) (fmt ts₁ ts₂ n t : String)
    (htitle : c₁.title = c₂.title) :
    (ts₁ = ts₂ →
      (generate df₁ c₁ fmt ts₁ n t).map GenResult.path
        = (generate df₂ c₂ fmt ts₂ n t).map GenResult.path)
    ∧ (mkFilename c₁.title ts₁ fmt = mkFilename c₂.title ts₂ fmt ↔ ts₁ = ts₂) := by
  constructor
  · intro hts
    subst hts
    unfold generate
    by_cases h1 : fmt = ( "pdf")
    · simp [h1, htitle, Except.map]
    · by_cases h2 : fmt = ( "word")
      · simp [h1, h2, htitle, Except.map]
      · by_cases h3 : fmt = ( "excel")
        · simp [h1, h2, h3, htitle, Except.map]
        · simp [h1, h2, h3, Except.map]
  · constructor
    · intro hmk
      rw [htitle] at hmk
      have hd := congrArg String.data hmk
      simp only [mkFilename, String.data_append, List.append_assoc] at hd
      have h1 := List.append_cancel_left hd
      have h2 := List.append_cancel_left h1
      have h3 := List.append_cancel_right h2
      exact String.ext h3
    · intro hts
      rw [htitle, hts]

theorem filename_determined_witness :
    cfgEx.title = cfgEx2.title
    ∧ (generate dfEx cfgEx ( "pdf") ( "20240101_120000") ( "n") ( "t")).map
        GenResult.path
      = (generate dfBig cfgEx2 ( "pdf") ( "20240101_120000") ( "n") ( "t")).map
        GenResult.path :=
  ⟨rfl,
    (filename_determined_by_title_and_second cfgEx cfgEx2 dfEx dfBig ( "pdf")
      ( "20240101_120000") ( "20240101_120000") ( "n") ( "t") rfl).1 rfl⟩

/-- Counterexample to claim C2: generate accepts a config whose title is the
empty string — no ValidationError is raised, the renderer runs, and an
output file named by the bare underscore-timestamp is created. -/
theorem empty_title_not_rejected :
    cfgEmptyTitle.title = ( "")
    ∧ (generate dfEx cfgEmptyTitle ( "pdf") ( "20240101_120000") ( "now") ( "today")).map
        GenResult.path = Except.ok ( "outputs/_20240101_120000.pdf")
    ∧ filesOf (generate dfEx cfgEmptyTitle ( "pdf") ( "20240101_120000") ( "now") ( "today"))
        = [( "outputs/_20240101_120000.pdf")] :=
  ⟨rfl, rfl, rfl⟩

/-- Claim C2 (amended): generate performs no title validation: for every
config whose title is the empty string it returns normally for each
supported format and creates an output file whose name is the underscore,
the timestamp and the extension. -/
theorem empty_title_accepted (df : DataFrame) (c : Config)
    (ts now today : String) (h : c.title = ( "")) :
    (generate df c ( "pdf") ts now today).map GenResult.path
        = Except.ok (( "outputs/_") ++ ts ++ ( ".pdf"))
    ∧ (generate df c ( "word") ts now today).map GenResult.path
        = Except.ok (( "outputs/_") ++ ts ++ ( ".docx"))
    ∧ (generate df c ( "excel") ts now today).map GenResult.path
        = Except.ok (( "outputs/_") ++ ts ++ ( ".xlsx")) := by
  refine ⟨?_, ?_, ?_⟩
  · show Except.ok (( "outputs/") ++ mkFilename c.title ts ( "pdf")) = _
    congr 1
    simp only [mkFilename, h, String.append_assoc]
    rfl
  · show Except.ok (( "outputs/") ++ mkFilename c.title ts ( "word")) = _
    congr 1
    simp only [mkFilename, h, String.append_assoc]
    rfl
  · show Except.ok (( "outputs/") ++ mkFilename c.title ts ( "excel")) = _
    congr 1
    simp only [mkFilename, h, String.append_assoc]
    rfl

theorem empty_title_accepted_witness :
    cfgEmptyTitle.title = ( "")
    ∧ (generate dfEx cfgEmptyTitle ( "word") ( "20240101_120000") ( "now") ( "today")).map
        GenResult.path
      = Except.ok (( "outputs/_") ++ ( "20240101_120000") ++ ( ".docx")) :=
  ⟨rfl,
    (empty_title_accepted dfEx cfgEmptyTitle ( "20240101_120000") ( "now") ( "today")
      rfl).2.1⟩

end ReportAI
